import Mathlib

/-!
Verification of the schema-normalization engine of `scripts/fetch_hmt_spending_data.py`.

The Python source defines `smart_find` and `normalize_dataframe` twice.  The
earlier pair (`_canon`-based `smart_find` at lines 19-39, `_parse_amount_series`
at lines 41-77, `normalize_dataframe` at lines 79-114) is shadowed at runtime by
the later pair (`smart_find` at lines 156-163, `normalize_dataframe` at lines
165-182), because in Python a later `def` of the same name replaces the earlier
one.  Both versions are embedded here: the `_v1` definitions are the earlier
(shadowed) ones, and the unsuffixed `smart_find` / `normalize_dataframe` are the
later definitions that actually run.

Tables are embedded positionally: a list of raw header strings plus rows of
cells, where a cell is a string, a number (pandas floats are modelled as exact
rationals), or the missing marker (pandas `NaN` / `None`).  A produced record is
an association list from canonical field name to an optional value, mirroring
`DataFrame.to_dict(orient="records")` on the frame returned by
`normalize_dataframe`, whose columns are exactly the keys of `COL_MAPS`.
-/

set_option autoImplicit false

namespace HMT

/-- A raw cell of the decoded spreadsheet: a string, a numeric value (pandas
float/int columns, modelled as exact rationals), or the missing marker
(`NaN`/`None`). -/
inductive Cell where
  | str (s : String)
  | num (q : Rat)
  | empty
  deriving DecidableEq, Repr

/-- A parsed output value: a plain string (also used for ISO dates) or a
number. -/
inductive Value where
  | str (s : String)
  | num (q : Rat)
  deriving DecidableEq, Repr

/-- A decoded input table: ordered raw headers plus rows of cells aligned
positionally to the headers. -/
structure Table where
  headers : List String
  rows : List (List Cell)
  deriving DecidableEq, Repr

/-- One output record: canonical field name paired with its (possibly absent)
value, in `COL_MAPS` key order.  Absent fields are present with value `none`,
mirroring the always-complete column set of the output frame. -/
abbrev Record := List (String × Option Value)

/-- Positional cell access.  A pandas `DataFrame` is rectangular: short CSV rows
are padded with `NaN` by the upstream reader, so a missing position reads as the
missing marker. -/
def nth (l : List Cell) (i : Nat) : Cell :=
  match l, i with
  | [], _ => Cell.empty
  | c :: _, 0 => c
  | _ :: t, n + 1 => nth t n

/-- `pandas.isna` on a cell: only the missing marker is NA (a string, even the
empty string, is not NA). -/
def isNa : Cell → Bool
  | Cell.empty => true
  | _ => false

/-- A raw cell as an output value (`None`/`NaN` becomes the absent marker). -/
def cellVal : Cell → Option Value
  | Cell.empty => none
  | Cell.str s => some (Value.str s)
  | Cell.num q => some (Value.num q)

/-- Python `str.strip()` on the character list: drop whitespace from both
ends. -/
def stripChars (l : List Char) : List Char :=
  ((l.dropWhile Char.isWhitespace).reverse.dropWhile Char.isWhitespace).reverse

/-- Python `str.strip()`. -/
def pyStrip (s : String) : String :=
  String.mk (stripChars s.data)

/-- Python `str.replace(" ", "")`: remove every space. -/
def despace (s : String) : String :=
  String.mk (s.data.filter (fun c => c != ' '))

/-- Python `str.lower()`, character by character (ASCII mapping; non-ASCII
letters are untouched, which never changes the outcome of the comparisons
performed here). -/
def pyLower (s : String) : String :=
  String.mk (s.data.map Char.toLower)

/-- `_canon` (source lines 12-17): lowercase, strip, collapse whitespace, then
remove every character that is not `a-z` or `0-9`.  The strip and
whitespace-collapse steps are subsumed by the final removal (whitespace is not
alphanumeric), so the composite is lowercasing followed by the filter. -/
def canon (s : String) : String :=
  String.mk ((pyLower s).data.filter (fun c => c.isDigit || c.isLower))

/-- Boolean infix (substring) test on character lists, used for the containment
phase of the earlier `smart_find` (`cc in colc` on Python strings). -/
def isInfixChars (needle : List Char) : List Char → Bool
  | [] => needle.isEmpty
  | c :: t => needle.isPrefixOf (c :: t) || isInfixChars needle t

/-- `COL_MAPS` (source lines 117-132): for each canonical field, the ordered
alias list, in the source's key order. -/
def COL_MAPS : List (String × List String) := [
  ("department_family", ["department family", "department", "departmentfamily"]),
  ("entity", ["entity", "body", "entity name"]),
  ("date", ["payment date", "date"]),
  ("expense_type", ["expense type", "expenditure type", "type"]),
  ("expense_area", ["expense area", "cost centre", "expensearea"]),
  ("supplier", ["supplier", "vendor", "supplier name"]),
  ("transaction_number", ["voucher number", "transaction number", "transaction no", "transaction id"]),
  ("amount_gbp", ["amount", "£", "gbp", "amount £", "net amount", "value"]),
  ("description", ["publication description", "description", "item text", "narrative"]),
  ("supplier_postcode", ["supplier postcode", "postal code", "post code", "postcode"]),
  ("supplier_type", ["supplier type", "supplier category"]),
  ("contract_number", ["contract number", "contract no", "po number", "purchase order"]),
  ("project_code", ["project code", "project", "cost code"]),
  ("item_text", ["item text"])
]

/-- The widened `amount_gbp` alias list that the earlier `normalize_dataframe`
installs into the global `COL_MAPS` at call time (source lines 84-88). -/
def AMOUNT_ALIASES_WIDENED : List String :=
  ["amount", "amount gbp", "amount (gbp)", "amount( gbp )", "amount £",
   "£", "gbp", "net amount", "net amount gbp", "value", "net value",
   "amount_gbp", "amt", "gross amount", "line amount"]

/-- `COL_MAPS` as seen by the earlier `normalize_dataframe`, which always
reassigns the `amount_gbp` entry to the widened list before reading the dict
(the in-place dict update keeps the key order). -/
def COL_MAPS_v1 : List (String × List String) :=
  COL_MAPS.map (fun p => if p.1 == "amount_gbp" then (p.1, AMOUNT_ALIASES_WIDENED) else p)

/-- The fixed canonical field set, in output order. -/
def canonical_fields : List String := COL_MAPS.map Prod.fst

/-- The earlier `smart_find` (source lines 19-39).  First phase: exact
canonical-form equality, scanning aliases in order and returning the first raw
header (in table order) whose canonical form equals the alias's canonical form.
Second phase: substring containment of the canonical alias inside the canonical
header, aliases outermost, skipping empty canonical aliases (`if cc and ...`). -/
def smart_find_v1 (cols_lower candidates : List String) : Option String :=
  let canon_cols := cols_lower.map canon
  let cand_canon := candidates.map canon
  match cand_canon.findSome? (fun cc =>
      if canon_cols.contains cc then some (cols_lower.getD (canon_cols.indexOf cc) "") else none) with
  | some h => some h
  | none =>
      cand_canon.findSome? (fun cc =>
        if cc.isEmpty then none
        else ((cols_lower.zip canon_cols).find? (fun p => isInfixChars cc.data p.2.data)).map Prod.fst)

/-- The later `smart_find` (source lines 156-163), the one that runs.  First
phase: literal list membership of the candidate among the (already lowercased,
stripped) headers.  Second phase: membership after removing spaces from both
sides.  No canonicalization and no substring containment. -/
def smart_find (cols_lower candidates : List String) : Option String :=
  match candidates.find? (fun c => cols_lower.contains c) with
  | some c => some c
  | none =>
      let cols_ns := cols_lower.map despace
      match candidates.find? (fun c => cols_ns.contains (despace c)) with
      | some c => some (cols_lower.getD (cols_ns.indexOf (despace c)) "")
      | none => none

/-!
## Amount parsing

`_parse_amount_series` (source lines 41-77) is the hardened amount parser of the
earlier `normalize_dataframe`; the later `normalize_dataframe` instead inlines a
simpler pipeline (source lines 176-180) whose extraction pattern is the raw
string `r"(-?\\d+(?:\\.\\d+)?)"`.  Because the backslashes are doubled inside a
raw string, that regex matches a literal backslash followed by letters `d`, not
digits — the earlier file even carries the comment "don't double-escape the
backslashes!".
-/

/-- Replace the three unicode dash variants (figure dash U+2012, en dash U+2013,
em dash U+2014) by the ASCII minus (source lines 57-59). -/
def dashFix (c : Char) : Char :=
  if c.toNat = 0x2012 || c.toNat = 0x2013 || c.toNat = 0x2014 then '-' else c

/-- Strip currency symbols and separators (source lines 62-65): remove every
`£` (U+00A3) and every comma, turn non-breaking spaces (U+00A0) into plain
spaces, then strip.  Removing `£` and `,` are independent character removals, so
they are performed as one filter. -/
def cleanAmountV1 (l : List Char) : List Char :=
  stripChars (((l.filter (fun c => c.toNat != 0xA3 && c != ',')).map
    (fun c => if c.toNat = 0xA0 then ' ' else c)))

/-- Accounting negatives (source line 68): `re.sub(r"^\((.*)\)$", r"-\1", t)`.
The whole string must be wrapped in parentheses and, since `.` does not match a
newline, the inner part must be newline-free. -/
def parenFix (l : List Char) : List Char :=
  match l with
  | '(' :: rest =>
      if rest.getLast? == some ')' && !(rest.dropLast.contains '\n')
      then '-' :: rest.dropLast else l
  | _ => l

/-- Does the character list spell `\d+(\.\d+)?` — digits with an optional single
decimal point and trailing digits? -/
def isPlainNumber (l : List Char) : Bool :=
  let ds := l.takeWhile Char.isDigit
  let rest := l.drop ds.length
  !ds.isEmpty &&
    (rest.isEmpty ||
      (rest.head? == some '.' && !(rest.drop 1).isEmpty && (rest.drop 1).all Char.isDigit))

/-- Trailing minus (source line 71): `re.sub(r"^(\d+(?:\.\d+)?)\-$", r"-\1", t)`
rewrites `1234-` to `-1234` when the whole string is a bare number followed by a
minus. -/
def trailingMinusFix (l : List Char) : List Char :=
  if l.getLast? == some '-' && isPlainNumber l.dropLast then '-' :: l.dropLast else l

/-- Greedy numeric token starting at a digit: digits, then optionally a decimal
point followed by at least one digit (the regex `\d+(?:\.\d+)?`). -/
def numToken (l : List Char) : List Char :=
  let ds := l.takeWhile Char.isDigit
  let rest := l.drop ds.length
  match rest with
  | '.' :: r2 =>
      let fs := r2.takeWhile Char.isDigit
      if fs.isEmpty then ds else ds ++ '.' :: fs
  | _ => ds

/-- Try to match `-?\d+(?:\.\d+)?` at the current position: a minus only
matches when immediately followed by a digit (otherwise the regex engine
backtracks over `-?` and fails, since `-` itself is not a digit). -/
def matchNumAt : List Char → Option (List Char)
  | [] => none
  | '-' :: rest =>
      if (rest.head?.map Char.isDigit).getD false then some ('-' :: numToken rest) else none
  | c :: rest => if c.isDigit then some (numToken (c :: rest)) else none

/-- `Series.str.extract(r"(-?\d+(?:\.\d+)?)")` on one string (source line 75):
the leftmost match of the signed-decimal pattern, or no match. -/
def extractFirst : List Char → Option (List Char)
  | [] => none
  | c :: rest =>
      match matchNumAt (c :: rest) with
      | some tok => some tok
      | none => extractFirst rest

/-- Numeric value of a digit list (digits only). -/
def natOfDigits (l : List Char) : Nat :=
  l.foldl (fun acc c => acc * 10 + (c.toNat - 48)) 0

/-- Value of an unsigned matched token `\d+(\.\d+)?` as an exact rational. -/
def ratOfTokenPos (l : List Char) : Rat :=
  let ds := l.takeWhile Char.isDigit
  let rest := l.drop ds.length
  match rest with
  | '.' :: fs => mkRat (natOfDigits ds * 10 ^ fs.length + natOfDigits fs) (10 ^ fs.length)
  | _ => mkRat (natOfDigits ds) 1

/-- Value of a matched token, with optional leading minus (`pd.to_numeric` on
the extracted token always succeeds, since the token is well-formed). -/
def ratOfToken (l : List Char) : Rat :=
  match l with
  | '-' :: r => -(ratOfTokenPos r)
  | _ => ratOfTokenPos l

/-- The string path of `_parse_amount_series` applied to one cell's string:
unicode dashes to ASCII minus, strip `£`/commas/non-breaking spaces and trim,
rewrite accounting parentheses and trailing minus, then extract and convert the
first numeric token; no token means the value is absent (`NaN`). -/
def parse_amount_str (s : String) : Option Rat :=
  let t := trailingMinusFix (parenFix (cleanAmountV1 (s.data.map dashFix)))
  (extractFirst t).map ratOfToken

/-- Python `str()` of a cell, as `Series.astype(str)` produces it: strings stay
themselves, the missing marker prints as a short non-numeric word, and a float
prints as its decimal repr.  Only two facts about the numeric repr are relied on
downstream: it contains no backslash, and for the simple magnitudes appearing
here it is the plain decimal form. -/
def cellStrForAmount : Cell → String
  | Cell.str s => s
  | Cell.empty => "nan"
  | Cell.num q => if q.den == 1 then toString q.num ++ ".0" else toString q

/-- `_parse_amount_series` (source lines 41-77) on a column.  A pandas column
has numeric dtype exactly when every cell is numeric or missing (a column with
any string is object dtype); numeric columns pass through `pd.to_numeric`
unchanged, other columns go through the string pipeline cell by cell. -/
def parse_amount_series (cells : List Cell) : List (Option Rat) :=
  if cells.all (fun c => match c with | Cell.str _ => false | _ => true) then
    cells.map (fun c => match c with | Cell.num q => some q | _ => none)
  else
    cells.map (fun c => parse_amount_str (cellStrForAmount c))

/-- Does the cleaned string contain a match of the double-escaped pattern
`(-?\\d+(?:\\.\\d+)?)`?  The mandatory core of that regex is a literal
backslash followed by one or more letters `d`, so a match exists exactly when
the two-character sequence backslash-`d` occurs. -/
def hasBackslashD : List Char → Bool
  | c1 :: c2 :: rest => (c1 == '\\' && c2 == 'd') || hasBackslashD (c2 :: rest)
  | _ => false

/-- The inline cleaning of the later `normalize_dataframe` (source line 178):
remove every comma, `£` and space. -/
def amount_clean_v2 (s : String) : List Char :=
  s.data.filter (fun c => c != ',' && c.toNat != 0xA3 && c != ' ')

/-- One cell of the later amount pipeline (source lines 176-180).  If the
double-escaped pattern matches, the extracted token contains a backslash, so the
final `.astype(float)` raises `ValueError` — modelled as an error; otherwise the
extraction yields no match and the value is `NaN`. -/
def amount_cell_v2 (c : Cell) : Except Unit (Option Rat) :=
  if hasBackslashD (amount_clean_v2 (cellStrForAmount c)) then Except.error ()
  else Except.ok none

/-- The later amount pipeline over the whole column: any raising cell makes the
whole `normalize_dataframe` call raise. -/
def amountColV2 : List Cell → Except Unit (List (Option Rat))
  | [] => Except.ok []
  | c :: cs =>
      match amount_cell_v2 c, amountColV2 cs with
      | Except.ok v, Except.ok vs => Except.ok (v :: vs)
      | Except.error e, _ => Except.error e
      | Except.ok _, Except.error e => Except.error e

/-!
## Date parsing

Both versions call `pd.to_datetime(out["date"], errors="coerce")` followed by
`.dt.strftime("%Y-%m-%d")` (source lines 102-103 and 174-175), with `dayfirst`
left at its default `False`.  The model below captures the dateutil behaviour
for the forms relevant here: numeric `a/b/yyyy` and `a-b-yyyy` dates resolved
month-first (day-first only when the first component cannot be a month), ISO
`yyyy-mm-dd`, numeric cells read as nanoseconds since the epoch, and everything
else (including two-digit years and month names, which no claim exercises)
coerced to `NaT`, i.e. absent. -/

/-- Split a character list on a separator character. -/
def splitOnChar (sep : Char) : List Char → List (List Char)
  | [] => [[]]
  | c :: rest =>
      let r := splitOnChar sep rest
      if c == sep then [] :: r
      else
        match r with
        | h :: t => (c :: h) :: t
        | [] => [[c]]

/-- A non-empty all-digit chunk as a number. -/
def digitsToNat? (l : List Char) : Option Nat :=
  if !l.isEmpty && l.all Char.isDigit then some (natOfDigits l) else none

/-- Gregorian leap-year rule. -/
def isLeap (y : Nat) : Bool :=
  y % 4 == 0 && (y % 100 != 0 || y % 400 == 0)

/-- Days in a month. -/
def daysInMonth (y m : Nat) : Nat :=
  if m == 2 then (if isLeap y then 29 else 28)
  else if m == 4 || m == 6 || m == 9 || m == 11 then 30 else 31

/-- Resolve the two leading numeric components of `a/b/year` the way dateutil
does with `dayfirst=False`: take `a` as the month when it can be one (failing if
`b` is not a valid day of that month), otherwise fall back to `b` as the month
and `a` as the day. -/
def mkYMD (y a b : Nat) : Option (Nat × Nat × Nat) :=
  if 1 ≤ a && a ≤ 12 then
    if 1 ≤ b && b ≤ daysInMonth y a then some (y, a, b) else none
  else if 1 ≤ b && b ≤ 12 && 1 ≤ a && a ≤ daysInMonth y b then some (y, b, a)
  else none

/-- Parse a numeric date string with 4-digit year: `a/b/yyyy`, `yyyy-mm-dd`
(ISO) or `a-b-yyyy`.  Anything else is unparseable (`NaT`). -/
def parseYMD (l : List Char) : Option (Nat × Nat × Nat) :=
  match (splitOnChar '/' l).map digitsToNat? with
  | [some a, some b, some y] =>
      if 1000 ≤ y && y ≤ 9999 then mkYMD y a b else none
  | _ =>
      match (splitOnChar '-' l).map digitsToNat? with
      | [some a, some b, some c] =>
          if 1000 ≤ a && a ≤ 9999 then
            if 1 ≤ b && b ≤ 12 && 1 ≤ c && c ≤ daysInMonth a b then some (a, b, c) else none
          else if 1000 ≤ c && c ≤ 9999 then mkYMD c a b
          else none
      | _ => none

/-- Civil date from days since the Unix epoch (Howard Hinnant's algorithm);
only applied inside the `pd.Timestamp` range, where the year is positive. -/
def civilFromDays (z0 : Int) : Nat × Nat × Nat :=
  let z : Int := z0 + 719468
  let era : Int := Int.fdiv z 146097
  let doe : Nat := (z - era * 146097).toNat
  let yoe : Nat := (doe - doe / 1460 + doe / 36524 - doe / 146096) / 365
  let y : Int := (yoe : Int) + era * 400
  let doy : Nat := doe - (365 * yoe + yoe / 4 - yoe / 100)
  let mp : Nat := (5 * doy + 2) / 153
  let d : Nat := doy - (153 * mp + 2) / 5 + 1
  let m : Nat := if mp < 10 then mp + 3 else mp - 9
  let yy : Int := if m ≤ 2 then y + 1 else y
  (yy.toNat, m, d)

/-- `pd.to_datetime` on a numeric cell: the value is nanoseconds since the
epoch, valid only within the signed-64-bit `pd.Timestamp` range (its minimum
bit pattern is reserved for `NaT`). -/
def epochDate (q : Rat) : Option (Nat × Nat × Nat) :=
  let ns : Int := q.floor
  if ns ≤ -(2 ^ 63) || 2 ^ 63 ≤ ns then none
  else some (civilFromDays (Int.fdiv ns 86400000000000))

/-- Decimal digits of a number. -/
def digitsOf (n : Nat) : List Char := (toString n).data

/-- Left-pad with zeros to the given width. -/
def padZero (k : Nat) (l : List Char) : List Char :=
  List.replicate (k - l.length) '0' ++ l

/-- Two-digit zero-padded component. -/
def pad2 (n : Nat) : List Char := padZero 2 (digitsOf n)

/-- `strftime("%Y-%m-%d")`. -/
def isoOf (ymd : Nat × Nat × Nat) : String :=
  String.mk (padZero 4 (digitsOf ymd.1) ++ '-' :: pad2 ymd.2.1 ++ '-' :: pad2 ymd.2.2)

/-- `pd.to_datetime(cell, errors="coerce")` on one cell. -/
def to_datetime_cell : Cell → Option (Nat × Nat × Nat)
  | Cell.empty => none
  | Cell.str s => parseYMD (pyStrip s).data
  | Cell.num q => epochDate q

/-- One cell of the date column after `pd.to_datetime(..., errors="coerce")`
and `.dt.strftime("%Y-%m-%d")`: an ISO date string, or absent for `NaT`. -/
def parse_date (c : Cell) : Option String :=
  (to_datetime_cell c).map isoOf

/-- The date column pass shared by both versions (source lines 101-103 and
174-175): if any cell is non-NA the whole column is parsed and reformatted;
otherwise the raw (all-NA) column is kept, which is the same thing as an
all-absent column. -/
def dateValsOf (cells : List Cell) : List (Option Value) :=
  if cells.any (fun c => !(isNa c)) then cells.map (fun c => Option.map Value.str (parse_date c))
  else cells.map cellVal

/-!
## The two `normalize_dataframe` versions

The table is accessed by column position: `mapping[k] = df.columns
[cols_lower.index(f)]` stores the original column label, and `df[mapping[k]]`
reads that column back, which for distinct original labels is the column at the
same position.  Assigning each mapped column to the output frame gives it one
entry per input row; assigning the scalar `None` for an unmapped field gives an
all-absent column of the same length (pandas reindexes columns assigned before
the frame's row index is established, and broadcasts scalars assigned after, so
every output column has one entry per input row in either case). -/

/-- The column of the table at an optional header position: the mapped column,
or an all-missing column for an unmapped field. -/
def colAt (rows : List (List Cell)) (oi : Option Nat) (n : Nat) : List Cell :=
  match oi with
  | some i => rows.map (fun r => nth r i)
  | none => List.replicate n Cell.empty

/-- Header resolution of the later `normalize_dataframe` (source lines
166-170): headers are stripped and lowercased, each canonical field's aliases
are handed to the later `smart_find`, and a hit is turned into the position of
the first header equal to it. -/
def fieldIdxV2 (headers : List String) (k : String) : Option Nat :=
  let cols_lower := headers.map (fun c => pyLower (pyStrip c))
  match COL_MAPS.lookup k with
  | some aliases => (smart_find cols_lower aliases).map (fun f => cols_lower.indexOf f)
  | none => none

/-- One output record of the later `normalize_dataframe`, for row `i`: every
key of `COL_MAPS` in order, with the parsed date column, the parsed amount
column, and raw copies of every other mapped column. -/
def buildRec (dateVals : List (Option Value)) (amtVals : List (Option Rat))
    (col : String → List Cell) (i : Nat) : Record :=
  COL_MAPS.map (fun p =>
    (p.1,
      if p.1 == "date" then dateVals.getD i none
      else if p.1 == "amount_gbp" then (amtVals.getD i none).map Value.num
      else cellVal (nth (col p.1) i)))

/-- The row filter of the later `normalize_dataframe` (source line 181): keep a
row unless its supplier and its parsed amount are both absent. -/
def keepRow (supCells : List Cell) (amtVals : List (Option Rat)) (i : Nat) : Bool :=
  !(isNa (nth supCells i) && (amtVals.getD i none).isNone)

/-- Rows of the later `normalize_dataframe`'s output frame, in original order:
project every canonical field, then keep the surviving row indices. -/
def buildRecords (n : Nat) (col : Option Nat → List Cell) (fIdx : String → Option Nat)
    (amtVals : List (Option Rat)) : List Record :=
  ((List.range n).filter (keepRow (col (fIdx "supplier")) amtVals)).map
    (fun i => buildRec (dateValsOf (col (fIdx "date"))) amtVals (fun k => col (fIdx k)) i)

/-- The later `normalize_dataframe` (source lines 165-182) over headers, row
count and column projection: the amount pipeline may raise (`astype(float)` on
a token containing a backslash), otherwise the record list is produced. -/
def normalizeFrom (headers : List String) (n : Nat) (col : Option Nat → List Cell) :
    Except Unit (List Record) :=
  match amountColV2 (col (fieldIdxV2 headers "amount_gbp")) with
  | Except.error e => Except.error e
  | Except.ok amtVals => Except.ok (buildRecords n col (fieldIdxV2 headers) amtVals)

/-- The later `normalize_dataframe` (source lines 165-182), the definition that
actually runs, on a decoded table. -/
def normalize_dataframe (t : Table) : Except Unit (List Record) :=
  normalizeFrom t.headers t.rows.length (fun oi => colAt t.rows oi t.rows.length)

/-- The earlier, shadowed `normalize_dataframe` (source lines 79-114): headers
are stripped but not lowercased, resolution goes through the `_canon`-based
`smart_find` with the widened amount aliases, amounts go through
`_parse_amount_series`, and a row is dropped only when supplier, amount, date
and description are all absent (`out.columns` always contains all four key
fields, so the `if key_cols:` guard always passes). -/
def normalize_dataframe_v1 (t : Table) : List Record :=
  let cols_lower := t.headers.map pyStrip
  let fIdx : String → Option Nat := fun k =>
    match COL_MAPS_v1.lookup k with
    | some aliases => (smart_find_v1 cols_lower aliases).map (fun f => cols_lower.indexOf f)
    | none => none
  let n := t.rows.length
  let col : String → List Cell := fun k => colAt t.rows (fIdx k) n
  let dateVals := dateValsOf (col "date")
  let amtVals := parse_amount_series (col "amount_gbp")
  let fieldVal : String → Nat → Option Value := fun k i =>
    if k == "date" then dateVals.getD i none
    else if k == "amount_gbp" then (amtVals.getD i none).map Value.num
    else cellVal (nth (col k) i)
  let keep : Nat → Bool := fun i =>
    !((fieldVal "supplier" i).isNone && (fieldVal "amount_gbp" i).isNone
      && (fieldVal "date" i).isNone && (fieldVal "description" i).isNone)
  ((List.range n).filter keep).map (fun i => COL_MAPS_v1.map (fun p => (p.1, fieldVal p.1 i)))

/-- Field access on an output record (`record["supplier"]`). -/
def getField (r : Record) (k : String) : Option (Option Value) :=
  List.lookup k r

/-- Is the field present with an actual value in the record? -/
def fieldPresent (r : Record) (k : String) : Bool :=
  match getField r k with
  | some (some _) => true
  | _ => false

/-- Pad a row with missing cells up to the header count, the way the upstream
reader pads short CSV rows before the table reaches `normalize_dataframe`. -/
def padRow (m : Nat) (r : List Cell) : List Cell :=
  r ++ List.replicate (m - r.length) Cell.empty

/-!
## Concrete inputs and outputs used by the claims
-/

/-- The end-to-end example table of the specification. -/
def tblC1 : Table :=
  ⟨["Department Family", "Entity", "Payment Date", "Supplier", "Amount (GBP)"],
   [[Cell.str "HM Treasury", Cell.str "HMT", Cell.str "31/01/2024",
     Cell.str "Acme Ltd", Cell.str "£12,500.00"]]⟩

/-- The record the specification's end-to-end example claims for `tblC1`:
amount parsed to 12500 and every field other than the four listed ones (in
particular `entity`) absent. -/
def claimRecC1 : Record :=
  [("department_family", some (Value.str "HM Treasury")),
   ("entity", none),
   ("date", some (Value.str "2024-01-31")),
   ("expense_type", none),
   ("expense_area", none),
   ("supplier", some (Value.str "Acme Ltd")),
   ("transaction_number", none),
   ("amount_gbp", some (Value.num 12500)),
   ("description", none),
   ("supplier_postcode", none),
   ("supplier_type", none),
   ("contract_number", none),
   ("project_code", none),
   ("item_text", none)]

/-- The record the running `normalize_dataframe` actually produces for `tblC1`:
`entity` is mapped (alias `entity`) and the amount comes out absent (the
`Amount (GBP)` header matches no unwidened alias, and the inline extraction
regex can never match a number anyway). -/
def recC1v2 : Record :=
  [("department_family", some (Value.str "HM Treasury")),
   ("entity", some (Value.str "HMT")),
   ("date", some (Value.str "2024-01-31")),
   ("expense_type", none),
   ("expense_area", none),
   ("supplier", some (Value.str "Acme Ltd")),
   ("transaction_number", none),
   ("amount_gbp", none),
   ("description", none),
   ("supplier_postcode", none),
   ("supplier_type", none),
   ("contract_number", none),
   ("project_code", none),
   ("item_text", none)]

/-- A table whose headers are exactly the canonical field names, with one clean
row (ISO date, numeric amount, plain strings). -/
def canonTbl : Table :=
  ⟨canonical_fields,
   [[Cell.str "HM Treasury", Cell.str "HMT", Cell.str "2024-01-31",
     Cell.str "Advertising", Cell.str "Comms", Cell.str "Acme Ltd",
     Cell.str "TX0001", Cell.num 12500, Cell.str "Services",
     Cell.str "SW1A 2HQ", Cell.str "COMPANY", Cell.str "CN1",
     Cell.str "PC1", Cell.str "Narrative"]]⟩

/-- The identity image of `canonTbl`'s row: every canonical field keeps its
input value.  This is what the shadowed `normalize_dataframe` returns. -/
def recCanonId : Record :=
  [("department_family", some (Value.str "HM Treasury")),
   ("entity", some (Value.str "HMT")),
   ("date", some (Value.str "2024-01-31")),
   ("expense_type", some (Value.str "Advertising")),
   ("expense_area", some (Value.str "Comms")),
   ("supplier", some (Value.str "Acme Ltd")),
   ("transaction_number", some (Value.str "TX0001")),
   ("amount_gbp", some (Value.num 12500)),
   ("description", some (Value.str "Services")),
   ("supplier_postcode", some (Value.str "SW1A 2HQ")),
   ("supplier_type", some (Value.str "COMPANY")),
   ("contract_number", some (Value.str "CN1")),
   ("project_code", some (Value.str "PC1")),
   ("item_text", some (Value.str "Narrative"))]

/-- What the running `normalize_dataframe` produces for `canonTbl`: only
`entity`, `date`, `supplier` and `description` appear literally in their alias
lists, so every underscored canonical name (including `department_family` and
`amount_gbp`) resolves to nothing and its value is lost. -/
def recCanonLost : Record :=
  [("department_family", none),
   ("entity", some (Value.str "HMT")),
   ("date", some (Value.str "2024-01-31")),
   ("expense_type", none),
   ("expense_area", none),
   ("supplier", some (Value.str "Acme Ltd")),
   ("transaction_number", none),
   ("amount_gbp", none),
   ("description", some (Value.str "Services")),
   ("supplier_postcode", none),
   ("supplier_type", none),
   ("contract_number", none),
   ("project_code", none),
   ("item_text", none)]

/-- A malformed table: three headers but only two cells in the row. -/
def tblShort : Table :=
  ⟨["Department Family", "Supplier", "Amount (GBP)"],
   [[Cell.str "HM Treasury", Cell.str "Acme"]]⟩

/-- The record the running `normalize_dataframe` produces for `tblShort`. -/
def recShort : Record :=
  [("department_family", some (Value.str "HM Treasury")),
   ("entity", none),
   ("date", none),
   ("expense_type", none),
   ("expense_area", none),
   ("supplier", some (Value.str "Acme")),
   ("transaction_number", none),
   ("amount_gbp", none),
   ("description", none),
   ("supplier_postcode", none),
   ("supplier_type", none),
   ("contract_number", none),
   ("project_code", none),
   ("item_text", none)]

/-- A table where `description` is the only populated key field of its row. -/
def tblDesc : Table :=
  ⟨["Department Family", "Description"],
   [[Cell.str "HM Treasury", Cell.str "stationery"]]⟩

/-- A table where none of the four key fields is mapped at all. -/
def tblNoKeys : Table :=
  ⟨["Department Family"], [[Cell.str "HM Treasury"]]⟩

/-- A minimal table with a populated supplier, used to witness the general
record-shape theorems. -/
def tblSup : Table :=
  ⟨["Department Family", "Supplier"], [[Cell.str "HM Treasury", Cell.str "Acme"]]⟩

/-- The single record the running `normalize_dataframe` produces for
`tblSup`. -/
def recSup : Record :=
  [("department_family", some (Value.str "HM Treasury")),
   ("entity", none),
   ("date", none),
   ("expense_type", none),
   ("expense_area", none),
   ("supplier", some (Value.str "Acme")),
   ("transaction_number", none),
   ("amount_gbp", none),
   ("description", none),
   ("supplier_postcode", none),
   ("supplier_type", none),
   ("contract_number", none),
   ("project_code", none),
   ("item_text", none)]

/-- A date string with day and month both at most 12, for which day-first and
month-first readings differ. -/
def slashDate (a b y : Nat) : String :=
  String.mk (pad2 a ++ '/' :: pad2 b ++ '/' :: digitsOf y)

/-- The parsed date column of a table under the later `normalize_dataframe`. -/
def dateColOf (t : Table) : List (Option Value) :=
  dateValsOf (colAt t.rows (fieldIdxV2 t.headers "date") t.rows.length)

/-- The per-field column projection of a table under the later
`normalize_dataframe`. -/
def colFun (t : Table) : String → List Cell :=
  fun k => colAt t.rows (fieldIdxV2 t.headers k) t.rows.length

/-- The amount pipeline of the later `normalize_dataframe` applied to a
table's amount column. -/
def amountColOf (t : Table) : Except Unit (List (Option Rat)) :=
  amountColV2 (colAt t.rows (fieldIdxV2 t.headers "amount_gbp") t.rows.length)

/-!
## Helper lemmas
-/

/-- Every record built by the later `normalize_dataframe` carries exactly the
canonical field names, in `COL_MAPS` order. -/
theorem buildRec_fst (d : List (Option Value)) (a : List (Option Rat))
    (c : String → List Cell) (i : Nat) :
    (buildRec d a c i).map Prod.fst = canonical_fields := rfl

/-- The `supplier` entry of a built record is the raw supplier cell. -/
theorem getField_buildRec_supplier (d : List (Option Value)) (a : List (Option Rat))
    (c : String → List Cell) (i : Nat) :
    getField (buildRec d a c i) "supplier" = some (cellVal (nth (c "supplier") i)) := rfl

/-- The `amount_gbp` entry of a built record is the parsed amount. -/
theorem getField_buildRec_amount (d : List (Option Value)) (a : List (Option Rat))
    (c : String → List Cell) (i : Nat) :
    getField (buildRec d a c i) "amount_gbp" = some ((a.getD i none).map Value.num) := rfl

/-- Destructuring a successful run of the later `normalize_dataframe`: every
output record is a built record at some surviving row index. -/
theorem normalize_ok_mem {t : Table} {recs : List Record} {r : Record}
    (h : normalize_dataframe t = Except.ok recs) (hr : r ∈ recs) :
    ∃ amtVals i,
      amountColV2 (colAt t.rows (fieldIdxV2 t.headers "amount_gbp") t.rows.length) =
        Except.ok amtVals ∧
      keepRow (colAt t.rows (fieldIdxV2 t.headers "supplier") t.rows.length) amtVals i = true ∧
      r = buildRec (dateValsOf (colAt t.rows (fieldIdxV2 t.headers "date") t.rows.length)) amtVals
            (fun k => colAt t.rows (fieldIdxV2 t.headers k) t.rows.length) i := by
  unfold normalize_dataframe normalizeFrom at h
  split at h
  · exact absurd h (by simp)
  · next amtVals heq =>
      injection h with h2
      subst h2
      unfold buildRecords at hr
      rcases List.mem_map.1 hr with ⟨i, hif, hEq⟩
      exact ⟨amtVals, i, heq, (List.mem_filter.1 hif).2, hEq.symm⟩

/-- The later amount pipeline never produces a value for a cell: it either
raises or yields `NaN`. -/
theorem amount_cell_v2_ok {c : Cell} {v : Option Rat}
    (h : amount_cell_v2 c = Except.ok v) : v = none := by
  unfold amount_cell_v2 at h
  split at h
  · exact absurd h (by simp)
  · injection h with h2
    exact h2.symm

/-- When the later amount pipeline succeeds on a column, every entry is
absent. -/
theorem amountColV2_all_none :
    ∀ {cells : List Cell} {v : List (Option Rat)},
      amountColV2 cells = Except.ok v → ∀ x ∈ v, x = none := by
  intro cells
  induction cells with
  | nil =>
      intro v h x hx
      unfold amountColV2 at h
      injection h with h2
      subst h2
      cases hx
  | cons c cs ih =>
      intro v h x hx
      unfold amountColV2 at h
      split at h
      · next v0 vs hc hcs =>
          injection h with h2
          subst h2
          rcases List.mem_cons.1 hx with h3 | h3
          · subst h3; exact amount_cell_v2_ok hc
          · exact ih hcs x h3
      · exact absurd h (by simp)
      · exact absurd h (by simp)

/-- Positional default read from an all-absent list is absent. -/
theorem getD_none_of_all {v : List (Option Rat)} (h : ∀ x ∈ v, x = none) (i : Nat) :
    v.getD i none = none := by
  induction v generalizing i with
  | nil => simp [List.getD]
  | cons a t ih =>
      cases i with
      | zero => simpa using h a (List.mem_cons_self a t)
      | succ n =>
          simp only [List.getD_cons_succ]
          exact ih (fun x hx => h x (List.mem_cons_of_mem a hx)) n

/-- The built record's `supplier` field is populated exactly when the raw
supplier cell is not missing. -/
theorem fieldPresent_buildRec_supplier (d : List (Option Value)) (a : List (Option Rat))
    (c : String → List Cell) (i : Nat) :
    fieldPresent (buildRec d a c i) "supplier" = !(isNa (nth (c "supplier") i)) := by
  simp only [fieldPresent, getField_buildRec_supplier]
  cases hcell : nth (c "supplier") i <;> rfl

/-- The built record's `amount_gbp` field is populated exactly when the parsed
amount is not absent. -/
theorem fieldPresent_buildRec_amount (d : List (Option Value)) (a : List (Option Rat))
    (c : String → List Cell) (i : Nat) :
    fieldPresent (buildRec d a c i) "amount_gbp" = !((a.getD i none).isNone) := by
  simp only [fieldPresent, getField_buildRec_amount]
  cases hv : a.getD i none <;> rfl

/-- The row filter of the later `normalize_dataframe` keeps a row exactly when
the record built for it has its supplier or its amount populated. -/
theorem keepRow_eq_present (d : List (Option Value)) (a : List (Option Rat))
    (c : String → List Cell) (i : Nat) :
    keepRow (c "supplier") a i =
      (fieldPresent (buildRec d a c i) "supplier" || fieldPresent (buildRec d a c i) "amount_gbp") := by
  rw [fieldPresent_buildRec_supplier, fieldPresent_buildRec_amount]
  unfold keepRow
  cases isNa (nth (c "supplier") i) <;> cases (a.getD i none).isNone <;> rfl

/-- Reading any position of an all-missing column gives the missing marker. -/
theorem nth_replicate (k i : Nat) : nth (List.replicate k Cell.empty) i = Cell.empty := by
  induction k generalizing i with
  | zero => cases i <;> rfl
  | succ m ih =>
      cases i with
      | zero => rfl
      | succ n => simpa [List.replicate, nth] using ih n

/-- Appending missing-cell padding never changes a positional read. -/
theorem nth_append_replicate (r : List Cell) (k i : Nat) :
    nth (r ++ List.replicate k Cell.empty) i = nth r i := by
  induction r generalizing i with
  | nil =>
      cases i with
      | zero => simp [nth, nth_replicate]
      | succ n => simp [nth, nth_replicate]
  | cons c t ih =>
      cases i with
      | zero => rfl
      | succ n => simpa [nth] using ih n

/-- Padding a row to the header count never changes a positional read. -/
theorem nth_padRow (m : Nat) (r : List Cell) (i : Nat) :
    nth (padRow m r) i = nth r i :=
  nth_append_replicate r (m - r.length) i

/-- Column projection is unchanged by row padding. -/
theorem colAt_padded (rows : List (List Cell)) (m : Nat) (oi : Option Nat) (n : Nat) :
    colAt (rows.map (padRow m)) oi n = colAt rows oi n := by
  cases oi with
  | none => rfl
  | some i =>
      show (rows.map (padRow m)).map (fun r => nth r i) = rows.map (fun r => nth r i)
      rw [List.map_map]
      exact List.map_congr_left (fun r _ => nth_padRow m r i)

/-!
## Claims
-/

/-- C1 (counterexample): on the specification's end-to-end table, the running
`normalize_dataframe` does not return the record the claim describes — the
amount comes out absent rather than 12500, and `entity` comes out populated
rather than absent. -/
theorem C1_counterexample :
    (normalize_dataframe tblC1).toOption ≠ some [claimRecC1] := by decide

/-- C1 (amended): for the end-to-end input table, `normalize_dataframe`
returns exactly one record with department_family "HM Treasury", entity "HMT",
date "2024-01-31", supplier "Acme Ltd", `amount_gbp` absent, and every other
canonical field absent. -/
theorem C1_amended : normalize_dataframe tblC1 = Except.ok [recC1v2] := rfl

/-- C2: the shadowed `_parse_amount_series` parses "£1,234.50", "1234.50" and
"1,234.50 " all to 1234.50, insensitive to commas, currency symbol and
spaces, exactly as the claim states — but the amount pipeline that actually
runs (inline in the later `normalize_dataframe`) yields absent for every one of
them, because its extraction regex is double-escaped. -/
theorem C2_code_bug_eval :
    parse_amount_series [Cell.str "£1,234.50"] = [some (mkRat 2469 2)] ∧
    parse_amount_series [Cell.str "1234.50"] = [some (mkRat 2469 2)] ∧
    parse_amount_series [Cell.str "1,234.50 "] = [some (mkRat 2469 2)] ∧
    amount_cell_v2 (Cell.str "£1,234.50") = Except.ok none ∧
    amount_cell_v2 (Cell.str "1234.50") = Except.ok none ∧
    amount_cell_v2 (Cell.str "1,234.50 ") = Except.ok none :=
  ⟨rfl, rfl, rfl, rfl, rfl, rfl⟩

/-- C3: the shadowed `_parse_amount_series` parses "(1234.56)" to -1234.56,
"1234-" to -1234 and "n/a" to absent, exactly as the claim states — but the
amount pipeline that actually runs yields absent for all three inputs (it has
no parenthesis or trailing-minus handling and its extraction regex is
double-escaped). -/
theorem C3_code_bug_eval :
    parse_amount_series [Cell.str "(1234.56)"] = [some (mkRat (-123456) 100)] ∧
    parse_amount_series [Cell.str "1234-"] = [some (mkRat (-1234) 1)] ∧
    parse_amount_series [Cell.str "n/a"] = [none] ∧
    amount_cell_v2 (Cell.str "(1234.56)") = Except.ok none ∧
    amount_cell_v2 (Cell.str "1234-") = Except.ok none ∧
    amount_cell_v2 (Cell.str "n/a") = Except.ok none := by
  refine ⟨by decide, by decide, rfl, rfl, rfl, rfl⟩

/-- C4: the header "amount_gbp" and the alias "amount gbp" have equal canonical
forms, and the shadowed canon-based `smart_find` resolves them as the claim
requires — but the `smart_find` that actually runs (literal membership with at
most space removal, which does not strip the underscore) finds no match at
all. -/
theorem C4_code_bug_eval :
    smart_find ["amount_gbp"] ["amount gbp"] = none ∧
    canon "amount_gbp" = canon "amount gbp" ∧
    smart_find_v1 ["amount_gbp"] ["amount gbp"] = some "amount_gbp" :=
  ⟨rfl, rfl, rfl⟩

/-- C5 (counterexample): the ambiguous date "01/02/2024" is parsed month-first
to "2024-01-02", not day-first to "2024-02-01" as the claim states —
`pd.to_datetime` is called with its default `dayfirst=False` in both versions
of the code. -/
theorem C5_counterexample :
    parse_date (Cell.str "01/02/2024") = some "2024-01-02" ∧
    parse_date (Cell.str "01/02/2024") ≠ some "2024-02-01" :=
  ⟨rfl, by decide⟩

/-- C5 (amended): every ambiguous numeric slash date (day and month both
between 1 and 12) is rendered month-first as an ISO string, and non-parseable
input yields absent rather than an error. -/
theorem C5_amended :
    (∀ a < 13, ∀ b < 13, 1 ≤ a → 1 ≤ b →
      parse_date (Cell.str (slashDate a b 2024)) = some (isoOf (2024, a, b))) ∧
    parse_date (Cell.str "not a date") = none := by decide

/-- Witness for C5 (amended) at the concrete ambiguous date 01/02/2024. -/
theorem C5_amended_witness :
    parse_date (Cell.str (slashDate 1 2 2024)) = some (isoOf (2024, 1, 2)) :=
  C5_amended.1 1 (by decide) 2 (by decide) (by decide) (by decide)

/-- C6 (counterexample): a row whose only populated key field is `description`
is dropped by the running `normalize_dataframe` (its filter looks only at
supplier and amount), and a table in which no key field is mapped at all has
every row dropped rather than retained. -/
theorem C6_counterexample :
    normalize_dataframe tblDesc = Except.ok [] ∧
    normalize_dataframe tblNoKeys = Except.ok [] :=
  ⟨rfl, rfl⟩

/-- C6 (amended): full characterization of the filter of the running
`normalize_dataframe`.  For every input table, the output is exactly the
records built for the row indices, in original order, whose record has its
supplier or its parsed amount populated — so a row is dropped iff both are
absent, date and description never rescue a row, and unmapped key fields count
as absent. -/
theorem C6_amended (t : Table) (recs : List Record)
    (h : normalize_dataframe t = Except.ok recs) :
    ∃ amtVals, amountColOf t = Except.ok amtVals ∧
      recs = ((List.range t.rows.length).filter (fun i =>
          fieldPresent (buildRec (dateColOf t) amtVals (colFun t) i) "supplier" ||
          fieldPresent (buildRec (dateColOf t) amtVals (colFun t) i) "amount_gbp")).map
        (buildRec (dateColOf t) amtVals (colFun t)) := by
  unfold normalize_dataframe normalizeFrom at h
  split at h
  · exact absurd h (by simp)
  · next amtVals heq =>
      injection h with h2
      subst h2
      refine ⟨amtVals, heq, ?_⟩
      show ((List.range t.rows.length).filter
            (keepRow (colFun t "supplier") amtVals)).map
          (buildRec (dateColOf t) amtVals (colFun t)) = _
      exact congrArg (List.map (buildRec (dateColOf t) amtVals (colFun t)))
        (List.filter_congr (fun i _ => keepRow_eq_present (dateColOf t) amtVals (colFun t) i))

/-- Witness for C6 (amended) at the concrete table `tblSup`, whose single row
survives through its populated supplier. -/
theorem C6_amended_witness :
    ∃ amtVals, amountColOf tblSup = Except.ok amtVals ∧
      [recSup] = ((List.range tblSup.rows.length).filter (fun i =>
          fieldPresent (buildRec (dateColOf tblSup) amtVals (colFun tblSup) i) "supplier" ||
          fieldPresent (buildRec (dateColOf tblSup) amtVals (colFun tblSup) i) "amount_gbp")).map
        (buildRec (dateColOf tblSup) amtVals (colFun tblSup)) :=
  C6_amended tblSup [recSup] rfl

/-- C7: every record produced by the running `normalize_dataframe`, for every
input table, carries all fourteen canonical fields in order, absent values
being explicit `none` entries rather than omitted keys. -/
theorem C7_complete_field_set (t : Table) (recs : List Record) (r : Record)
    (h : normalize_dataframe t = Except.ok recs) (hr : r ∈ recs) :
    r.map Prod.fst = canonical_fields := by
  rcases normalize_ok_mem h hr with ⟨amtVals, i, _, _, hEq⟩
  subst hEq
  exact buildRec_fst _ _ _ _

/-- Witness for C7 at the concrete table `tblSup`. -/
theorem C7_complete_field_set_witness :
    recSup.map Prod.fst = canonical_fields :=
  C7_complete_field_set tblSup [recSup] recSup rfl (by decide)

/-- C8 (counterexample): a table whose row is shorter than its header list is
normalized without any failure, producing a record — not the atomic
`MalformedTable` failure with no output that the claim describes. -/
theorem C8_counterexample :
    normalize_dataframe tblShort = Except.ok [recShort] := rfl

/-- C8 (amended): a short row is treated as if its missing trailing cells were
absent — normalizing any table equals normalizing the same table with every row
padded to the header count, and no malformed-table failure exists. -/
theorem C8_amended (headers : List String) (rows : List (List Cell)) :
    normalize_dataframe ⟨headers, rows.map (padRow headers.length)⟩ =
      normalize_dataframe ⟨headers, rows⟩ := by
  unfold normalize_dataframe
  simp only [List.length_map]
  congr 1
  funext oi
  exact colAt_padded rows headers.length oi rows.length

/-- C9: on a table headed exactly by the canonical field names with one clean
row, the running `normalize_dataframe` loses the values of every underscored
field that no alias spells literally — department_family, expense_type,
expense_area, transaction_number, amount_gbp, supplier_postcode,
supplier_type, contract_number, project_code and item_text all come out absent
— while the shadowed canon-based `normalize_dataframe` returns the row
unchanged, as the idempotence claim states. -/
theorem C9_code_bug_eval :
    normalize_dataframe canonTbl = Except.ok [recCanonLost] ∧
    normalize_dataframe_v1 canonTbl = [recCanonId] :=
  ⟨rfl, rfl⟩

/-- C10 (counterexample): the two `normalize_dataframe` definitions are not
extensionally equal — on the end-to-end example table the earlier definition
parses the amount to 12500 while the later (running) one leaves it absent, so
their outputs differ. -/
theorem C10_counterexample :
    (normalize_dataframe tblC1).toOption ≠ some (normalize_dataframe_v1 tblC1) := by decide

/-- C10 (amended): the later `normalize_dataframe` never populates
`amount_gbp` in any record of any table (its double-escaped extraction regex
cannot match a number), so the two definitions can only agree where the earlier
one also parses no amount. -/
theorem C10_amended (t : Table) (recs : List Record) (r : Record)
    (h : normalize_dataframe t = Except.ok recs) (hr : r ∈ recs) :
    getField r "amount_gbp" = some none := by
  rcases normalize_ok_mem h hr with ⟨amtVals, i, hAmt, _, hEq⟩
  subst hEq
  rw [getField_buildRec_amount]
  rw [getD_none_of_all (amountColV2_all_none hAmt) i]
  rfl

/-- Witness for C10 (amended) at the concrete table `tblSup`. -/
theorem C10_amended_witness :
    getField recSup "amount_gbp" = some none :=
  C10_amended tblSup [recSup] recSup rfl (by decide)

end HMT
